import Mathlib

set_option linter.all false

/-!
Shallow embedding of the BusTub buffer pool manager
(`src/buffer/buffer_pool_manager.cpp`) and LRU replacer
(`src/buffer/lru_replacer.cpp`).

Conventions of the embedding:
* `page_id_t` / `frame_id_t` are machine `int` in C++; page ids are modelled
  as `Int` (the sentinel `INVALID_PAGE_ID = -1` is in range), frame ids as
  `Nat` (the pool only ever uses indices `0 .. pool_size-1`; the `-1`
  sentinel of `NewPageImpl` is modelled with `Option`).
* Page payloads are modelled abstractly as a single `Nat` token (`data_`
  in the source is an opaque byte buffer to the buffer pool; `ResetMemory`
  zeroes it, `ReadPage` fills it with the disk content).
* `std::unordered_map<page_id_t, frame_id_t>` is modelled as an association
  list with unique keys; `std::list` as `List`.
* The LRU replacer's `map_frame_id` only caches list positions for O(1)
  erasure; semantically it always equals the set of elements of
  `list_frame_id`, so only the list is represented and `count(f) != 0`
  becomes list membership.
* The latch is dropped: operations are modelled as sequential state
  transformers (every public operation acquires the single latch at entry
  in the source, so the sequential semantics is the observable one).
* The external disk manager (out of scope per the specification) is
  modelled from the spec interface: `allocate_page` returns a fresh id
  from a counter, `deallocate_page` retires an id, `read_page` /
  `write_page` access a page-id-indexed store.  Every call is also
  recorded in an operation trace so that "no disk I/O happened" and
  "write_page was called" are stateable.
-/

namespace Bustub

/-- Sentinel page id, `INVALID_PAGE_ID = -1` in the source headers. -/
def INVALID_PAGE_ID : Int := -1

/-- A frame slot (`Page` in the source): current page id, pin count,
dirty bit and the (abstracted) payload. -/
structure Page where
  page_id : Int
  pin_count : Nat
  is_dirty : Bool
  data : Nat
deriving DecidableEq

/-- A default-constructed frame: `page_id_ = INVALID_PAGE_ID`,
`pin_count_ = 0`, `is_dirty_ = false`, zeroed payload. -/
def Page.initial : Page :=
  { page_id := INVALID_PAGE_ID, pin_count := 0, is_dirty := false, data := 0 }

/-- `pages_[f]` read access (out-of-range reads never occur in the pool;
they default to the initial frame). -/
def pageAt : List Page → Nat → Page
  | [], _ => Page.initial
  | p :: _, 0 => p
  | _ :: rest, n + 1 => pageAt rest n

/-- In-place update of `pages_[f]`. -/
def updPage : List Page → Nat → (Page → Page) → List Page
  | [], _, _ => []
  | p :: rest, 0, u => u p :: rest
  | p :: rest, n + 1, u => p :: updPage rest n u

/-- `pages_[f].pin_count_++`. -/
def incPin (pg : Page) : Page := { pg with pin_count := pg.pin_count + 1 }

/-- `pages_[f].pin_count_--`. -/
def decPin (pg : Page) : Page := { pg with pin_count := pg.pin_count - 1 }

/-- `pages_[f].pin_count_ = 0`. -/
def zeroPin (pg : Page) : Page := { pg with pin_count := 0 }

/-- `pages_[f].is_dirty_ = true`. -/
def setDirty (pg : Page) : Page := { pg with is_dirty := true }

def pageIdAt (ps : List Page) (f : Nat) : Int := (pageAt ps f).page_id

def pinCountAt (ps : List Page) (f : Nat) : Nat := (pageAt ps f).pin_count

def isDirtyAt (ps : List Page) (f : Nat) : Bool := (pageAt ps f).is_dirty

def dataAt (ps : List Page) (f : Nat) : Nat := (pageAt ps f).data

/-! ### LRU replacer (`src/buffer/lru_replacer.cpp`) -/

/-- `list_frame_id.back()`. -/
def backOf : List Nat → Option Nat
  | [] => none
  | [x] => some x
  | _ :: xs => backOf xs

/-- `list_frame_id.pop_back()`. -/
def dropBack : List Nat → List Nat
  | [] => []
  | [_] => []
  | x :: xs => x :: dropBack xs

/-- The capacity loop of `LRUReplacer::Unpin`:
`for (; Size() >= maxLen;) { pop_front; }`.
(When `maxLen = 0` the C++ loop would call `front()` on an empty list,
which is undefined behaviour; the model returns `[]` there.  The buffer
pool always constructs the replacer with `maxLen = pool_size ≥ 1` frames
tracked, so the case is unreachable in pool use.) -/
def capDrop (maxLen : Nat) : List Nat → List Nat
  | [] => []
  | x :: xs => if maxLen ≤ xs.length + 1 then capDrop maxLen xs else x :: xs

/-- `LRUReplacer`: capacity `maxLen` and the recency list, front =
most-recently-unpinned, back = least-recently-unpinned. -/
structure LRUReplacer where
  maxLen : Nat
  list_frame_id : List Nat
deriving DecidableEq

/-- `LRUReplacer::Victim`: if the list is empty return `none`, otherwise
remove and return the back element. -/
def LRUReplacer.victim (r : LRUReplacer) : Option Nat × LRUReplacer :=
  match backOf r.list_frame_id with
  | none => (none, r)
  | some f => (some f, { r with list_frame_id := dropBack r.list_frame_id })

/-- `LRUReplacer::Pin`: erase `f` from the list if tracked, else no-op. -/
def LRUReplacer.pin (r : LRUReplacer) (f : Nat) : LRUReplacer :=
  if f ∈ r.list_frame_id then { r with list_frame_id := r.list_frame_id.erase f }
  else r

/-- `LRUReplacer::Unpin`: no-op when `f` is already tracked; otherwise run
the capacity loop (pop from the front while `Size() >= maxLen`) and push
`f` at the front. -/
def LRUReplacer.unpin (r : LRUReplacer) (f : Nat) : LRUReplacer :=
  if f ∈ r.list_frame_id then r
  else { r with list_frame_id := f :: capDrop r.maxLen r.list_frame_id }

/-- `LRUReplacer::Size`. -/
def LRUReplacer.size (r : LRUReplacer) : Nat := r.list_frame_id.length

/-! ### Disk manager (external collaborator)

Modelled from the spec: the disk manager itself is out of scope of the
repository snippet (§1 of the specification); only the four-operation
interface of §6 is consumed by the buffer pool.  `allocate_page` returns
a fresh id from a monotone counter (bustub's `next_page_id_++`),
`deallocate_page` retires an id, `read_page`/`write_page` access the
store.  All calls are traced in `ops`. -/

inductive DiskOp where
  | readPage (pid : Int)
  | writePage (pid : Int) (content : Nat)
  | allocatePage (pid : Int)
  | deallocatePage (pid : Int)
deriving DecidableEq

/-- On-disk content lookup; unwritten pages read as zeroed. -/
def diskLookup : List (Int × Nat) → Int → Nat
  | [], _ => 0
  | (q, c) :: rest, p => if q = p then c else diskLookup rest p

/-- On-disk content store (overwrite or append). -/
def diskStore : List (Int × Nat) → Int → Nat → List (Int × Nat)
  | [], p, c => [(p, c)]
  | (q, d) :: rest, p, c =>
      if q = p then (p, c) :: rest else (q, d) :: diskStore rest p c

structure DiskManager where
  next_page_id : Int
  outstanding : List Int
  disk : List (Int × Nat)
  ops : List DiskOp
deriving DecidableEq

def DiskManager.allocatePage (d : DiskManager) : Int × DiskManager :=
  (d.next_page_id,
   { d with next_page_id := d.next_page_id + 1,
            outstanding := d.outstanding ++ [d.next_page_id],
            ops := d.ops ++ [DiskOp.allocatePage d.next_page_id] })

def DiskManager.deallocatePage (d : DiskManager) (p : Int) : DiskManager :=
  { d with outstanding := d.outstanding.filter (fun q => q ≠ p),
           ops := d.ops ++ [DiskOp.deallocatePage p] }

def DiskManager.readPage (d : DiskManager) (p : Int) : Nat × DiskManager :=
  (diskLookup d.disk p, { d with ops := d.ops ++ [DiskOp.readPage p] })

def DiskManager.writePage (d : DiskManager) (p : Int) (c : Nat) : DiskManager :=
  { d with disk := diskStore d.disk p c, ops := d.ops ++ [DiskOp.writePage p c] }

/-! ### Page table helpers -/

/-- `page_table_.find` / `count`. -/
def ptLookup : List (Int × Nat) → Int → Option Nat
  | [], _ => none
  | (q, f) :: rest, p => if q = p then some f else ptLookup rest p

/-- `page_table_.erase(key)` (keys are unique, so filtering is erasure). -/
def ptErase (t : List (Int × Nat)) (p : Int) : List (Int × Nat) :=
  t.filter (fun e => e.1 ≠ p)

/-- `page_table_[key] = value` (`operator[]`: overwrite or insert). -/
def ptStore (t : List (Int × Nat)) (p : Int) (f : Nat) : List (Int × Nat) :=
  match ptLookup t p with
  | some _ => t.map (fun e => if e.1 = p then (p, f) else e)
  | none => t ++ [(p, f)]

/-- `page_table_.insert(pair)` (`insert`: no-op when the key is present). -/
def ptInsertNew (t : List (Int × Nat)) (p : Int) (f : Nat) : List (Int × Nat) :=
  match ptLookup t p with
  | some _ => t
  | none => t ++ [(p, f)]

/-- The victim scan of `FetchPageImpl`: first page table key mapped to
frame `f`, else `INVALID_PAGE_ID`. -/
def scanFrame : List (Int × Nat) → Nat → Int
  | [], _ => INVALID_PAGE_ID
  | (q, g) :: rest, f => if g = f then q else scanFrame rest f

/-! ### Buffer pool manager (`src/buffer/buffer_pool_manager.cpp`) -/

structure BufferPoolManager where
  pool_size : Nat
  pages : List Page
  page_table : List (Int × Nat)
  free_list : List Nat
  replacer : LRUReplacer
  dm : DiskManager
deriving DecidableEq

/-- The constructor: all frames default-initialised, every frame id in the
free list, an empty replacer of capacity `pool_size`. `next` seeds the
disk manager's id counter. -/
def BufferPoolManager.init (pool_size : Nat) (next : Int) : BufferPoolManager :=
  { pool_size := pool_size,
    pages := List.replicate pool_size Page.initial,
    page_table := [],
    free_list := List.range pool_size,
    replacer := { maxLen := pool_size, list_frame_id := [] },
    dm := { next_page_id := next, outstanding := [], disk := [], ops := [] } }

/-- `BufferPoolManager::FetchPageImpl`.  The returned `Option Nat` is the
frame index of the returned `Page*` (`none` = `nullptr`).

Faithful to the source, including its control flow defect: when the page
misses and the free list is non-empty, the source pops the front frame
but the install block lives only inside the replacer-victim branch, so
the call falls through to `return nullptr` without installing anything. -/
def BufferPoolManager.fetchPage (b : BufferPoolManager) (page_id : Int) :
    Option Nat × BufferPoolManager :=
  match ptLookup b.page_table page_id with
  | some f =>
      (some f, { b with replacer := b.replacer.pin f, pages := updPage b.pages f incPin })
  | none =>
    match b.free_list with
    | _ :: rest =>
        (none, { b with free_list := rest })
    | [] =>
      match b.replacer.victim with
      | (none, r) => (none, { b with replacer := r })
      | (some f, r) =>
        let b1 := { b with replacer := r }
        let tmp_page_id := scanFrame b1.page_table f
        let b2 :=
          if tmp_page_id ≠ INVALID_PAGE_ID then
            let b2a :=
              if (pageAt b1.pages f).is_dirty then
                { b1 with
                    dm := b1.dm.writePage tmp_page_id (pageAt b1.pages f).data,
                    pages := updPage b1.pages f zeroPin }
              else b1
            { b2a with page_table := ptErase b2a.page_table (pageAt b2a.pages f).page_id }
          else b1
        let b3 := { b2 with pages := updPage b2.pages f (fun pg => { pg with page_id := page_id }) }
        let b4 := { b3 with page_table := ptStore b3.page_table page_id f }
        let rd := b4.dm.readPage page_id
        let b5 := { b4 with dm := rd.2, pages := updPage b4.pages f (fun pg => { pg with data := rd.1 }) }
        let b6 := { b5 with pages := updPage b5.pages f (fun pg => incPin { pg with is_dirty := false }), replacer := b5.replacer.pin f }
        (some f, b6)

/-- `BufferPoolManager::UnpinPageImpl`. -/
def BufferPoolManager.unpinPage (b : BufferPoolManager) (page_id : Int) (is_dirty : Bool) :
    Bool × BufferPoolManager :=
  match ptLookup b.page_table page_id with
  | none => (false, b)
  | some f =>
    let b1 := if is_dirty then { b with pages := updPage b.pages f setDirty } else b
    if (pageAt b1.pages f).pin_count = 0 then (false, b1)
    else
      let b2 := { b1 with pages := updPage b1.pages f decPin }
      if (pageAt b2.pages f).pin_count = 0 then
        (true, { b2 with replacer := b2.replacer.unpin f })
      else (true, b2)

/-- `BufferPoolManager::FlushPageImpl`.  Note the source returns `false`
on the success path as well. -/
def BufferPoolManager.flushPage (b : BufferPoolManager) (page_id : Int) :
    Bool × BufferPoolManager :=
  match ptLookup b.page_table page_id with
  | none => (false, b)
  | some f =>
      if page_id = INVALID_PAGE_ID then (false, b)
      else (false, { b with dm := b.dm.writePage page_id (pageAt b.pages f).data })

/-- `BufferPoolManager::NewPageImpl`.  Returns `some (page_id, frame)` for
the id written through the out-parameter together with the returned frame,
`none` for `nullptr`.  `AllocatePage` is called unconditionally at entry;
on the failure path (`tmp_frame_id_ == -1`) the allocated id is never
deallocated. -/
def BufferPoolManager.newPage (b : BufferPoolManager) :
    Option (Int × Nat) × BufferPoolManager :=
  let alloc := b.dm.allocatePage
  let tmp_page_id := alloc.1
  let b0 := { b with dm := alloc.2 }
  let acq : Option Nat × BufferPoolManager :=
    match b0.free_list with
    | f :: rest => (some f, { b0 with free_list := rest })
    | [] =>
      match b0.replacer.victim with
      | (none, r) => (none, { b0 with replacer := r })
      | (some f, r) =>
        let b1 := { b0 with replacer := r }
        let b2 :=
          if (pageAt b1.pages f).is_dirty then
            { b1 with
                dm := b1.dm.writePage (pageAt b1.pages f).page_id (pageAt b1.pages f).data,
                pages := updPage b1.pages f zeroPin }
          else b1
        let b3 := { b2 with page_table := ptErase b2.page_table (pageAt b2.pages f).page_id }
        let b4 := { b3 with pages := updPage b3.pages f (fun pg => { pg with page_id := INVALID_PAGE_ID, data := 0 }) }
        (some f, b4)
  match acq with
  | (none, b') => (none, b')
  | (some f, b') =>
    let b5 := { b' with pages := updPage b'.pages f (fun pg => { pg with is_dirty := false, page_id := tmp_page_id, pin_count := 1 }) }
    let b6 := { b5 with dm := b5.dm.writePage tmp_page_id (pageAt b5.pages f).data }
    let b7 := { b6 with page_table := ptInsertNew b6.page_table tmp_page_id f }
    (some (tmp_page_id, f), b7)

/-- `BufferPoolManager::DeletePageImpl`.  On a dirty resident page the
source re-enters `FetchPageImpl` while holding the (non-recursive) latch —
a self-deadlock in C++; the sequential model executes the self-call.  The
`pages_[page_table_[page_id]]` re-lookups after that call are modelled
with `getD 0` (`operator[]` default); at that point the key is always
still present, so the default is never taken. -/
def BufferPoolManager.deletePage (b : BufferPoolManager) (page_id : Int) :
    Bool × BufferPoolManager :=
  match ptLookup b.page_table page_id with
  | none => (true, b)
  | some f0 =>
    if (pageAt b.pages f0).pin_count ≠ 0 then (false, b)
    else
      let tmp_frame := f0
      let b1 := if (pageAt b.pages f0).is_dirty then (b.fetchPage page_id).2 else b
      let b2 := { b1 with dm := b1.dm.deallocatePage page_id }
      let f1 := (ptLookup b2.page_table page_id).getD 0
      let b3 := { b2 with pages := updPage b2.pages f1 (fun pg => { pg with data := 0, page_id := INVALID_PAGE_ID, is_dirty := false }) }
      let b4 := { b3 with page_table := ptErase b3.page_table page_id }
      let b5 := { b4 with free_list := b4.free_list ++ [tmp_frame] }
      (true, b5)

/-- `BufferPoolManager::FlushAllPagesImpl`: write every page table entry
out to disk. -/
def BufferPoolManager.flushAllPages (b : BufferPoolManager) : BufferPoolManager :=
  b.page_table.foldl
    (fun acc e => { acc with dm := acc.dm.writePage e.1 (pageAt acc.pages e.2).data }) b

/-! ### Operation language, for reachability statements -/

inductive BPOp where
  | fetch (p : Int)
  | newp
  | unpin (p : Int) (d : Bool)
  | flush (p : Int)
  | flushAll
  | del (p : Int)
deriving DecidableEq

def applyOp (b : BufferPoolManager) : BPOp → BufferPoolManager
  | BPOp.fetch p => (b.fetchPage p).2
  | BPOp.newp => (b.newPage).2
  | BPOp.unpin p d => (b.unpinPage p d).2
  | BPOp.flush p => (b.flushPage p).2
  | BPOp.flushAll => b.flushAllPages
  | BPOp.del p => (b.deletePage p).2

def runOps (b : BufferPoolManager) (l : List BPOp) : BufferPoolManager :=
  l.foldl applyOp b

/-- Invariant I4 of the specification: a frame holds `INVALID_PAGE_ID`
iff it is in the free list, and such a frame has `pin_count = 0` and
`is_dirty = false`. -/
def I4 (b : BufferPoolManager) : Prop :=
  ∀ f, f < b.pool_size →
    ((pageIdAt b.pages f = INVALID_PAGE_ID) ↔ f ∈ b.free_list) ∧
    (pageIdAt b.pages f = INVALID_PAGE_ID →
      pinCountAt b.pages f = 0 ∧ isDirtyAt b.pages f = false)

instance (b : BufferPoolManager) : Decidable (I4 b) := by
  unfold I4; infer_instance

/-- A one-frame pool with page 0 freshly allocated and pinned in frame 0
(the state after a single `new_page` on a fresh pool). -/
def bpm1 : BufferPoolManager := ((BufferPoolManager.init 1 0).newPage).2

/-! ### Helper lemmas about frame array access -/

theorem length_updPage (ps : List Page) (f : Nat) (u : Page → Page) :
    (updPage ps f u).length = ps.length := by
  induction ps generalizing f with
  | nil => rfl
  | cons p rest ih =>
    cases f with
    | zero => rfl
    | succ n => simpa [updPage] using ih n

theorem pageAt_updPage_self (ps : List Page) (f : Nat) (u : Page → Page)
    (h : f < ps.length) :
    pageAt (updPage ps f u) f = u (pageAt ps f) := by
  induction ps generalizing f with
  | nil => simp at h
  | cons p rest ih =>
    cases f with
    | zero => rfl
    | succ n => exact ih n (by simpa using h)

theorem pageAt_updPage_other (ps : List Page) (f g : Nat) (u : Page → Page)
    (h : g ≠ f) :
    pageAt (updPage ps f u) g = pageAt ps g := by
  induction ps generalizing f g with
  | nil => rfl
  | cons p rest ih =>
    cases f with
    | zero =>
      cases g with
      | zero => exact absurd rfl h
      | succ m => rfl
    | succ n =>
      cases g with
      | zero => rfl
      | succ m => exact ih n m (fun e => h (congrArg Nat.succ e))

/-! ### Claim theorems -/

/-- Claim C1: the spec says a `fetch_page(p)` miss with a non-empty free
list takes the front free frame, installs `p` there (pin 1, clean), reads
the page from disk, inserts `(p, f)` into the page table and returns the
frame.  The source does none of this: the install block sits only inside
the replacer-victim branch, so on a fresh one-frame pool `fetch_page(5)`
pops frame 0 off the free list, performs no disk read, installs nothing
and returns `nullptr`. -/
theorem C1_fetch_miss_free_list_returns_none :
    ((BufferPoolManager.init 1 0).fetchPage 5).1 = none ∧
    ((BufferPoolManager.init 1 0).fetchPage 5).2.free_list = [] ∧
    ptLookup ((BufferPoolManager.init 1 0).fetchPage 5).2.page_table 5 = none ∧
    pageIdAt ((BufferPoolManager.init 1 0).fetchPage 5).2.pages 0 = INVALID_PAGE_ID ∧
    ((BufferPoolManager.init 1 0).fetchPage 5).2.dm.ops = [] := by
  decide

/-- Claim C2: invariant I4 holds in the initial state but is destroyed by
the very first `fetch_page` miss: the frame popped off the free list keeps
`page_id = INVALID` yet is no longer in the free list. -/
theorem C2_i4_broken_by_fetch :
    I4 (BufferPoolManager.init 1 0) ∧
    ¬ I4 (runOps (BufferPoolManager.init 1 0) [BPOp.fetch 0]) := by
  decide

/-- Claim C3: on a resident page `flush_page` does write the frame
contents to disk via `write_page`, but the source then returns `false`
instead of the specified `true` (the spec itself flags this as a source
bug). -/
theorem C3_flush_success_returns_false :
    (bpm1.flushPage 0).1 = false ∧
    DiskOp.writePage 0 (dataAt bpm1.pages 0) ∈ (bpm1.flushPage 0).2.dm.ops := by
  decide

/-- Claim C4 counterexample: `delete_page(7)` on a pool not holding page 7
returns `true` but issues no `deallocate_page` call (the call at the top
of `DeletePageImpl` is commented out; the live call sits after the
page-table check): the whole state, disk trace included, is unchanged. -/
theorem C4_delete_absent_no_deallocate :
    ((BufferPoolManager.init 1 0).deletePage 7).1 = true ∧
    ((BufferPoolManager.init 1 0).deletePage 7).2 = BufferPoolManager.init 1 0 ∧
    DiskOp.deallocatePage 7 ∉ ((BufferPoolManager.init 1 0).deletePage 7).2.dm.ops := by
  decide

/-- Claim C4 (amended): `delete_page(p)` with `p` absent from the page
table returns `true` and leaves the entire state — including the disk
manager, so in particular without calling `deallocate_page` — unchanged. -/
theorem C4_delete_absent_amended (b : BufferPoolManager) (p : Int)
    (h : ptLookup b.page_table p = none) :
    b.deletePage p = (true, b) := by
  simp [BufferPoolManager.deletePage, h]

theorem C4_delete_absent_amended_witness :
    ptLookup (BufferPoolManager.init 1 0).page_table 7 = none ∧
    (BufferPoolManager.init 1 0).deletePage 7 = (true, BufferPoolManager.init 1 0) :=
  ⟨by decide, C4_delete_absent_amended (BufferPoolManager.init 1 0) 7 (by decide)⟩

/-- Claim C5 counterexample: on a one-frame pool whose only frame is
pinned, `new_page` fails (`none`) but has already called `allocate_page`
and never deallocates the obtained id: the disk manager's outstanding set
grows from `[0]` to `[0, 1]`. -/
theorem C5_newpage_failure_leaks_page_id :
    (bpm1.newPage).1 = none ∧
    bpm1.dm.outstanding = [0] ∧
    (bpm1.newPage).2.dm.outstanding = [0, 1] ∧
    DiskOp.allocatePage 1 ∈ (bpm1.newPage).2.dm.ops ∧
    DiskOp.deallocatePage 1 ∉ (bpm1.newPage).2.dm.ops := by
  decide

/-- Claim C5 (amended): whenever no frame can be obtained (free list empty
and replacer empty), `new_page` returns `none`, but `allocate_page` has
been called and the allocated id is never deallocated: the failed call
grows the outstanding id set by exactly the freshly allocated id. -/
theorem C5_newpage_failure_amended (b : BufferPoolManager)
    (h1 : b.free_list = []) (h2 : b.replacer.list_frame_id = []) :
    (b.newPage).1 = none ∧
    (b.newPage).2.dm.outstanding = b.dm.outstanding ++ [b.dm.next_page_id] ∧
    (b.newPage).2.dm.ops = b.dm.ops ++ [DiskOp.allocatePage b.dm.next_page_id] := by
  simp [BufferPoolManager.newPage, DiskManager.allocatePage, LRUReplacer.victim, backOf,
    h1, h2]

theorem C5_newpage_failure_amended_witness :
    bpm1.free_list = [] ∧ bpm1.replacer.list_frame_id = [] ∧
    (bpm1.newPage).1 = none ∧
    (bpm1.newPage).2.dm.outstanding = bpm1.dm.outstanding ++ [bpm1.dm.next_page_id] ∧
    (bpm1.newPage).2.dm.ops = bpm1.dm.ops ++ [DiskOp.allocatePage bpm1.dm.next_page_id] := by
  have h := C5_newpage_failure_amended bpm1 (by decide) (by decide)
  exact ⟨by decide, by decide, h.1, h.2.1, h.2.2⟩

/-- Claim C9: the spec says `fetch_page(INVALID_PAGE_ID)` is rejected with
`none` and no state change.  The source has no such check: on a one-frame
pool whose page 0 is resident and unpinned, `fetch_page(INVALID)` evicts
the page, installs `INVALID_PAGE_ID` as a resident page-table key, issues
a disk read for page `INVALID` and returns the frame instead of `none`. -/
theorem C9_fetch_invalid_not_rejected :
    ((bpm1.unpinPage 0 false).2.fetchPage INVALID_PAGE_ID).1 = some 0 ∧
    ptLookup ((bpm1.unpinPage 0 false).2.fetchPage INVALID_PAGE_ID).2.page_table
      INVALID_PAGE_ID = some 0 ∧
    pageIdAt ((bpm1.unpinPage 0 false).2.fetchPage INVALID_PAGE_ID).2.pages 0 =
      INVALID_PAGE_ID ∧
    DiskOp.readPage INVALID_PAGE_ID ∈
      ((bpm1.unpinPage 0 false).2.fetchPage INVALID_PAGE_ID).2.dm.ops := by
  decide

/-- Claim C10: `flush_page` never modifies buffer pool state: on every
path (invalid id, absent page, successful write) the frame array, page
table, free list and replacer are returned untouched; in particular the
dirty bit of a flushed page is not cleared. -/
theorem C10_flush_preserves_pool_state (b : BufferPoolManager) (p : Int) :
    (b.flushPage p).2.pool_size = b.pool_size ∧
    (b.flushPage p).2.pages = b.pages ∧
    (b.flushPage p).2.page_table = b.page_table ∧
    (b.flushPage p).2.free_list = b.free_list ∧
    (b.flushPage p).2.replacer = b.replacer := by
  by_cases hp : p = INVALID_PAGE_ID
  · subst hp
    rcases hl : ptLookup b.page_table INVALID_PAGE_ID with _ | f <;>
      simp [BufferPoolManager.flushPage, hl]
  · rcases hl : ptLookup b.page_table p with _ | f <;>
      simp [BufferPoolManager.flushPage, hl, hp]

/-- Claim C6 counterexample: with capacity `num_pages = 2`, the capacity
loop of `Unpin` evicts the most-recently-unpinned entry from the front,
so after `unpin 0, unpin 1, unpin 2` on an empty replacer the victims are
`0` then `2`: the second victim is not `1` as the claim requires. -/
theorem C6_lru_capacity_two_counterexample :
    ((((LRUReplacer.mk 2 []).unpin 0).unpin 1).unpin 2).victim.1 = some 0 ∧
    (((((LRUReplacer.mk 2 []).unpin 0).unpin 1).unpin 2).victim.2.victim.1 = some 2 ∧
     ¬ (((((LRUReplacer.mk 2 []).unpin 0).unpin 1).unpin 2).victim.2.victim.1 = some 1)) := by
  decide

/-- Claim C6 (amended): for the LRU replacer with capacity `num_pages ≥ 3`
and nothing yet tracked, after `unpin(a), unpin(b), unpin(c)` on three
distinct frame ids with no intervening `pin`, three successive `victim`
calls return `a`, then `b`, then `c`. -/
theorem C6_lru_order_amended (n a b c : Nat) (hn : 3 ≤ n)
    (hab : a ≠ b) (hac : a ≠ c) (hbc : b ≠ c) :
    ((((LRUReplacer.mk n []).unpin a).unpin b).unpin c).victim.1 = some a ∧
    ((((LRUReplacer.mk n []).unpin a).unpin b).unpin c).victim.2.victim.1 = some b ∧
    ((((LRUReplacer.mk n []).unpin a).unpin b).unpin c).victim.2.victim.2.victim.1 =
      some c := by
  have hba := Ne.symm hab
  have hca := Ne.symm hac
  have hcb := Ne.symm hbc
  have h1 : ¬ (n ≤ 1) := by omega
  have h2 : ¬ (n ≤ 2) := by omega
  simp [LRUReplacer.unpin, LRUReplacer.victim, capDrop, backOf, dropBack,
    hba, hca, hcb, h1, h2]

theorem C6_lru_order_amended_witness :
    ((((LRUReplacer.mk 3 []).unpin 4).unpin 5).unpin 6).victim.1 = some 4 ∧
    ((((LRUReplacer.mk 3 []).unpin 4).unpin 5).unpin 6).victim.2.victim.1 = some 5 ∧
    ((((LRUReplacer.mk 3 []).unpin 4).unpin 5).unpin 6).victim.2.victim.2.victim.1 =
      some 6 :=
  C6_lru_order_amended 3 4 5 6 (by decide) (by decide) (by decide) (by decide)

/-- Claim C7: on a `fetch_page(p)` hit at frame `f` the source calls
`replacer.pin(f)`, increments `pages[f].pin_count` by exactly one, returns
the frame, leaves every other frame, the page table, the free list and the
disk manager (hence: no disk I/O) unchanged, and does not touch the hit
frame's page id, dirty bit or payload. -/
theorem C7_fetch_hit (b : BufferPoolManager) (p : Int) (f : Nat)
    (h : ptLookup b.page_table p = some f) (hf : f < b.pages.length) :
    (b.fetchPage p).1 = some f ∧
    pinCountAt (b.fetchPage p).2.pages f = pinCountAt b.pages f + 1 ∧
    pageIdAt (b.fetchPage p).2.pages f = pageIdAt b.pages f ∧
    isDirtyAt (b.fetchPage p).2.pages f = isDirtyAt b.pages f ∧
    dataAt (b.fetchPage p).2.pages f = dataAt b.pages f ∧
    (∀ g, g ≠ f → pageAt (b.fetchPage p).2.pages g = pageAt b.pages g) ∧
    (b.fetchPage p).2.replacer = b.replacer.pin f ∧
    (b.fetchPage p).2.page_table = b.page_table ∧
    (b.fetchPage p).2.free_list = b.free_list ∧
    (b.fetchPage p).2.dm = b.dm := by
  have key : b.fetchPage p =
      (some f, { b with replacer := b.replacer.pin f, pages := updPage b.pages f incPin }) := by
    simp [BufferPoolManager.fetchPage, h]
  rw [key]
  refine ⟨rfl, ?_, ?_, ?_, ?_, ?_, rfl, rfl, rfl, rfl⟩
  · simp [pinCountAt, pageAt_updPage_self b.pages f incPin hf, incPin]
  · simp [pageIdAt, pageAt_updPage_self b.pages f incPin hf, incPin]
  · simp [isDirtyAt, pageAt_updPage_self b.pages f incPin hf, incPin]
  · simp [dataAt, pageAt_updPage_self b.pages f incPin hf, incPin]
  · exact fun g hg => pageAt_updPage_other b.pages f g incPin hg

theorem C7_fetch_hit_witness :
    ptLookup bpm1.page_table 0 = some 0 ∧ 0 < bpm1.pages.length ∧
    (bpm1.fetchPage 0).1 = some 0 ∧
    pinCountAt (bpm1.fetchPage 0).2.pages 0 = pinCountAt bpm1.pages 0 + 1 ∧
    (bpm1.fetchPage 0).2.dm = bpm1.dm := by
  have h := C7_fetch_hit bpm1 0 0 (by decide) (by decide)
  exact ⟨by decide, by decide, h.1, h.2.1, h.2.2.2.2.2.2.2.2.2⟩

/-- Claim C8: `unpin_page(p, d)` returns `false` (without state change) when
`p` is absent; otherwise, on the resident frame `f`, it first sets the
dirty bit when `d` is true (never clearing it), then returns `false` if
the pin count is already zero, and otherwise decrements the pin count by
one, calls `replacer.unpin(f)` exactly when the count reaches zero, and
returns `true`. -/
theorem C8_unpin_page_behaviour (b : BufferPoolManager) (p : Int) (d : Bool) :
    (ptLookup b.page_table p = none → b.unpinPage p d = (false, b)) ∧
    (∀ f, ptLookup b.page_table p = some f → f < b.pages.length →
      isDirtyAt (b.unpinPage p d).2.pages f = (d || isDirtyAt b.pages f) ∧
      (pinCountAt b.pages f = 0 →
        (b.unpinPage p d).1 = false ∧
        pinCountAt (b.unpinPage p d).2.pages f = 0 ∧
        (b.unpinPage p d).2.replacer = b.replacer) ∧
      (pinCountAt b.pages f ≠ 0 →
        (b.unpinPage p d).1 = true ∧
        pinCountAt (b.unpinPage p d).2.pages f + 1 = pinCountAt b.pages f ∧
        (b.unpinPage p d).2.replacer =
          (if pinCountAt b.pages f = 1 then b.replacer.unpin f else b.replacer))) := by
  constructor
  · intro h
    simp [BufferPoolManager.unpinPage, h]
  · intro f h hf
    by_cases hpin : (pageAt b.pages f).pin_count = 0
    · cases d <;>
        simp [BufferPoolManager.unpinPage, h, pinCountAt, isDirtyAt, setDirty,
          pageAt_updPage_self, length_updPage, hf, hpin]
    · by_cases hone : (pageAt b.pages f).pin_count = 1
      · cases d <;>
          simp [BufferPoolManager.unpinPage, h, pinCountAt, isDirtyAt, setDirty, decPin,
            pageAt_updPage_self, length_updPage, hf, hpin, hone]
      · have hsub : ¬ ((pageAt b.pages f).pin_count - 1 = 0) := by omega
        cases d <;>
          simp [BufferPoolManager.unpinPage, h, pinCountAt, isDirtyAt, setDirty, decPin,
            pageAt_updPage_self, length_updPage, hf, hpin, hone, hsub] <;>
          omega

theorem C8_unpin_page_behaviour_witness :
    (bpm1.unpinPage 0 true).1 = true ∧
    isDirtyAt (bpm1.unpinPage 0 true).2.pages 0 = (true || isDirtyAt bpm1.pages 0) ∧
    pinCountAt (bpm1.unpinPage 0 true).2.pages 0 + 1 = pinCountAt bpm1.pages 0 := by
  have h := (C8_unpin_page_behaviour bpm1 0 true).2 0 (by decide) (by decide)
  have h3 := h.2.2 (by decide)
  exact ⟨h3.1, h.1, h3.2.1⟩

end Bustub
